import Mathlib

/-!
Verification of the text-input plugin of the flutter-embedded-linux
repository (`shell/platform/linux_embedded/plugins/text_input_plugin.cc`).

The plugin's dispatch logic (method-call handling, key dispatch, Maliit IME
callback handlers, outbound notifications) is embedded directly from the
source file. The `TextInputModel` that the plugin drives lives elsewhere in
the repository and is modelled from the specification's description of its
operations (spec section 4.1).

JSON documents (rapidjson in the source) are embedded as an inductive value
type; outbound channel messages are embedded as a `Notification` type
recording the method name's payload structure.
-/

namespace TextInputSpec

/-- A JSON value, standing in for a rapidjson document/value. -/
inductive Json where
  | null
  | bool (b : Bool)
  | int (n : Int)
  | str (s : String)
  | arr (elements : List Json)
  | obj (members : List (String × Json))

/-- rapidjson `FindMember`: first member with the given name, if the value
is an object and such a member exists. -/
def Json.find (j : Json) (key : String) : Option Json :=
  match j with
  | .obj ms => (ms.find? fun kv => kv.1 == key).map Prod.snd
  | _ => none

/-- rapidjson `IsNull`. -/
def Json.isNull (j : Json) : Bool :=
  match j with
  | .null => true
  | _ => false

/-- rapidjson `GetInt`; only ever applied to values known to be integers
(rapidjson asserts otherwise). -/
def Json.getInt (j : Json) : Int :=
  match j with
  | .int n => n
  | _ => 0

/-- rapidjson `GetString`; only ever applied to values known to be strings. -/
def Json.getString (j : Json) : String :=
  match j with
  | .str s => s
  | _ => ""

/-- rapidjson array indexing `args[i]`; only ever applied in-bounds on
arrays (rapidjson asserts otherwise). -/
def Json.index (j : Json) (i : Nat) : Json :=
  match j with
  | .arr xs => xs.getD i .null
  | _ => .null

/-- A range of text: `base` and `extent` offsets, either of which may be the
larger (selection direction). -/
structure TextRange where
  base : Int
  extent : Int
deriving DecidableEq, Repr

/-- Start of the range clamped into `[0, len]` (code-point offsets). -/
def TextRange.startN (r : TextRange) (len : Nat) : Nat :=
  min (min r.base r.extent).toNat len

/-- End of the range clamped into `[0, len]` (code-point offsets). -/
def TextRange.stopN (r : TextRange) (len : Nat) : Nat :=
  min (max r.base r.extent).toNat len

/-- Modelled from the spec: the `TextEditingModel` (source file
`text_input_model` of this repository, not part of the verified snapshot).
Text is a sequence of code points; selection a `TextRange`; composing is an
active flag plus an optional composing range, tracked independently
(spec sections 3 and 9). -/
structure TextInputModel where
  text : List Char
  selection : TextRange
  composingActive : Bool
  composingRange : Option TextRange
deriving DecidableEq, Repr

namespace TextInputModel

/-- A freshly constructed model: empty text, caret at 0, not composing. -/
def initial : TextInputModel :=
  { text := [], selection := ⟨0, 0⟩, composingActive := false,
    composingRange := none }

/-- Modelled from the spec: `composing()` accessor. -/
def composing (m : TextInputModel) : Bool := m.composingActive

/-- Modelled from the spec: `SetText` replaces the buffer wholesale and does
not clamp or validate the selection against the new length. -/
def SetText (m : TextInputModel) (s : List Char) : TextInputModel :=
  { m with text := s }

/-- Modelled from the spec: `SetSelection` replaces the selection wholesale,
no bounds clamping performed. -/
def SetSelection (m : TextInputModel) (r : TextRange) : TextInputModel :=
  { m with selection := r }

/-- Modelled from the spec: `MoveCursorBack` collapses any selection to a
caret one code point before the current base, clamped to `[0, len]`;
reports no change at the boundary. -/
def MoveCursorBack (m : TextInputModel) : TextInputModel × Bool :=
  let pos : Int := max 0 (min (m.selection.base - 1) (m.text.length : Int))
  let sel : TextRange := ⟨pos, pos⟩
  ({ m with selection := sel }, decide (sel ≠ m.selection))

/-- Modelled from the spec: `MoveCursorForward` collapses any selection to a
caret one code point after the current base, clamped to `[0, len]`. -/
def MoveCursorForward (m : TextInputModel) : TextInputModel × Bool :=
  let pos : Int := max 0 (min (m.selection.base + 1) (m.text.length : Int))
  let sel : TextRange := ⟨pos, pos⟩
  ({ m with selection := sel }, decide (sel ≠ m.selection))

/-- Modelled from the spec: `MoveCursorToBeginning` collapses to a caret at
offset 0; reports no change if already there. -/
def MoveCursorToBeginning (m : TextInputModel) : TextInputModel × Bool :=
  let sel : TextRange := ⟨0, 0⟩
  ({ m with selection := sel }, decide (sel ≠ m.selection))

/-- Modelled from the spec: `MoveCursorToEnd` collapses to a caret at the
text length; reports no change if already there. -/
def MoveCursorToEnd (m : TextInputModel) : TextInputModel × Bool :=
  let sel : TextRange := ⟨(m.text.length : Int), (m.text.length : Int)⟩
  ({ m with selection := sel }, decide (sel ≠ m.selection))

/-- Modelled from the spec: `Backspace` deletes a non-empty selection, else
the code point before the caret; reports no change at offset 0 with no
selection. -/
def Backspace (m : TextInputModel) : TextInputModel × Bool :=
  if m.selection.base ≠ m.selection.extent then
    let st := m.selection.startN m.text.length
    let en := m.selection.stopN m.text.length
    ({ m with text := m.text.take st ++ m.text.drop en,
              selection := ⟨(st : Int), (st : Int)⟩ }, true)
  else
    let c := min m.selection.base.toNat m.text.length
    if c = 0 then (m, false)
    else
      ({ m with text := m.text.take (c - 1) ++ m.text.drop c,
                selection := ⟨((c - 1 : Nat) : Int), ((c - 1 : Nat) : Int)⟩ },
       true)

/-- Modelled from the spec: `Delete` deletes a non-empty selection, else the
code point after the caret; reports no change at the end with no
selection. -/
def Delete (m : TextInputModel) : TextInputModel × Bool :=
  if m.selection.base ≠ m.selection.extent then
    let st := m.selection.startN m.text.length
    let en := m.selection.stopN m.text.length
    ({ m with text := m.text.take st ++ m.text.drop en,
              selection := ⟨(st : Int), (st : Int)⟩ }, true)
  else
    let c := min m.selection.base.toNat m.text.length
    if c < m.text.length then
      ({ m with text := m.text.take c ++ m.text.drop (c + 1),
                selection := ⟨(c : Int), (c : Int)⟩ }, true)
    else (m, false)

/-- Modelled from the spec: `AddText` replaces a non-empty selection with
the string, else inserts at the caret; the caret moves to the end of the
inserted text. Always a change from the caller's point of view. -/
def AddText (m : TextInputModel) (s : List Char) : TextInputModel :=
  let st := m.selection.startN m.text.length
  let en := m.selection.stopN m.text.length
  { m with text := m.text.take st ++ s ++ m.text.drop en,
           selection := ⟨((st + s.length : Nat) : Int),
                         ((st + s.length : Nat) : Int)⟩ }

/-- Modelled from the spec: `AddCodePoint` is `AddText` of one code
point. -/
def AddCodePoint (m : TextInputModel) (cp : Char) : TextInputModel :=
  m.AddText [cp]

/-- Modelled from the spec: `BeginComposing` sets the active flag and
records a zero-length composing range at the current caret. -/
def BeginComposing (m : TextInputModel) : TextInputModel :=
  { m with composingActive := true,
           composingRange := some ⟨m.selection.base, m.selection.base⟩ }

/-- Modelled from the spec: `UpdateComposingText` replaces the
composing-range substring with the string, extends the composing range to
cover it and moves the caret to the end; only meaningful while
composing. -/
def UpdateComposingText (m : TextInputModel) (s : List Char) : TextInputModel :=
  if m.composingActive then
    match m.composingRange with
    | some r =>
      let st := r.startN m.text.length
      let en := r.stopN m.text.length
      { m with text := m.text.take st ++ s ++ m.text.drop en,
               composingRange := some ⟨(st : Int), ((st + s.length : Nat) : Int)⟩,
               selection := ⟨((st + s.length : Nat) : Int),
                             ((st + s.length : Nat) : Int)⟩ }
    | none => m
  else m

/-- Modelled from the spec: `EndComposing` clears the active flag and the
composing range without altering the text. -/
def EndComposing (m : TextInputModel) : TextInputModel :=
  { m with composingActive := false, composingRange := none }

end TextInputModel

/-- The editing-state object serialized by `SendStateUpdate`
(`text_input_plugin.cc`, lines 264-283). -/
structure EditingStatePayload where
  composingBase : Int
  composingExtent : Int
  selectionAffinity : String
  selectionBase : Int
  selectionExtent : Int
  selectionIsDirectional : Bool
  text : List Char
deriving DecidableEq, Repr

/-- An outbound channel message on `flutter/textinput`. -/
inductive Notif where
  | updateEditingState (clientId : Int) (state : EditingStatePayload)
  | performAction (clientId : Int) (inputAction : String)
deriving DecidableEq, Repr

/-- True for `TextInputClient.updateEditingState` messages. -/
def Notif.isUpdate : Notif → Bool
  | .updateEditingState _ _ => true
  | .performAction _ _ => false

/-- The `updateEditingState` messages of an emission sequence. -/
def updatesOf (ns : List Notif) : List Notif :=
  ns.filter Notif.isUpdate

/-- The result delivered to a method call (`MethodResult` in the source). -/
inductive MethodResult where
  | success
  | error (code : String) (message : String)
  | notImplemented
deriving DecidableEq, Repr

/-- Error code `kBadArgumentError`. -/
def kBadArgumentError : String := "Bad Arguments"

/-- Error code `kInternalConsistencyError`. -/
def kInternalConsistencyError : String := "Internal Consistency Error"

/-- `kMultilineInputType`. -/
def kMultilineInputType : String := "TextInputType.multiline"

/-- `kAffinityDownstream`. -/
def kAffinityDownstream : String := "TextAffinity.downstream"

/-- Linux key code `KEY_ESC` from `input-event-codes.h`. -/
def KEY_ESC : Nat := 1
/-- Linux key code `KEY_TAB`. -/
def KEY_TAB : Nat := 15
/-- Linux key code `KEY_BACKSPACE`. -/
def KEY_BACKSPACE : Nat := 14
/-- Linux key code `KEY_ENTER`. -/
def KEY_ENTER : Nat := 28
/-- Linux key code `KEY_INSERT`. -/
def KEY_INSERT : Nat := 110
/-- Linux key code `KEY_DELETE`. -/
def KEY_DELETE : Nat := 111
/-- Linux key code `KEY_PAUSE`. -/
def KEY_PAUSE : Nat := 119
/-- Linux key code `KEY_HOME`. -/
def KEY_HOME : Nat := 102
/-- Linux key code `KEY_END`. -/
def KEY_END : Nat := 107
/-- Linux key code `KEY_LEFT`. -/
def KEY_LEFT : Nat := 105
/-- Linux key code `KEY_UP`. -/
def KEY_UP : Nat := 103
/-- Linux key code `KEY_RIGHT`. -/
def KEY_RIGHT : Nat := 106
/-- Linux key code `KEY_DOWN`. -/
def KEY_DOWN : Nat := 108
/-- Linux key code `KEY_PAGEUP`. -/
def KEY_PAGEUP : Nat := 104
/-- Linux key code `KEY_PAGEDOWN`. -/
def KEY_PAGEDOWN : Nat := 109

/-- `Qt::KeyPress` (value 6) from the inlined Qt enum. -/
def QtKeyPress : Int := 6

/-- The static `QtKeyToLinuxEvent` table (`text_input_plugin.cc`, lines
84-101), as a lookup function: Qt key to Linux key code, `none` when the Qt
key is not in the table. -/
def QtKeyToLinuxEvent (key : Int) : Option Nat :=
  if key = 0x01000000 then some KEY_ESC
  else if key = 0x01000001 then some KEY_TAB
  else if key = 0x01000003 then some KEY_BACKSPACE
  else if key = 0x01000004 then some KEY_ENTER
  else if key = 0x01000005 then some KEY_ENTER
  else if key = 0x01000006 then some KEY_INSERT
  else if key = 0x01000007 then some KEY_DELETE
  else if key = 0x01000008 then some KEY_PAUSE
  else if key = 0x01000010 then some KEY_HOME
  else if key = 0x01000011 then some KEY_END
  else if key = 0x01000012 then some KEY_LEFT
  else if key = 0x01000013 then some KEY_UP
  else if key = 0x01000014 then some KEY_RIGHT
  else if key = 0x01000015 then some KEY_DOWN
  else if key = 0x01000016 then some KEY_PAGEUP
  else if key = 0x01000017 then some KEY_PAGEDOWN
  else none

/-- The plugin's session state: `client_id_`, `input_action_`,
`input_type_`, `active_model_`. -/
structure TextInputPlugin where
  client_id : Int
  input_action : String
  input_type : String
  active_model : Option TextInputModel
deriving DecidableEq, Repr

namespace TextInputPlugin

/-- `SendStateUpdate` (`text_input_plugin.cc`, lines 264-283): serialize
`[client_id_, editing_state]` and invoke
`TextInputClient.updateEditingState`. -/
def SendStateUpdate (p : TextInputPlugin) (m : TextInputModel) : Notif :=
  .updateEditingState p.client_id
    { composingBase := -1
      composingExtent := -1
      selectionAffinity := kAffinityDownstream
      selectionBase := m.selection.base
      selectionExtent := m.selection.extent
      selectionIsDirectional := false
      text := m.text }

/-- `EnterPressed` (`text_input_plugin.cc`, lines 285-296): on a multiline
input type, add a newline code point and send a state update; then always
invoke `TextInputClient.performAction` with `[client_id_, input_action_]`. -/
def EnterPressed (p : TextInputPlugin) (m : TextInputModel) :
    TextInputModel × List Notif :=
  if p.input_type = kMultilineInputType then
    let m' := m.AddCodePoint '\n'
    (m', [p.SendStateUpdate m', .performAction p.client_id p.input_action])
  else
    (m, [.performAction p.client_id p.input_action])

/-- The common tail of `OnKeyPressed`: store the (possibly) updated model
and, when the dispatch reported a change, append a state update to the
emissions produced during dispatch. -/
def finishKey (p : TextInputPlugin) (m' : TextInputModel) (changed : Bool)
    (pre : List Notif) : TextInputPlugin × List Notif :=
  ({ p with active_model := some m' },
   pre ++ if changed then [p.SendStateUpdate m'] else [])

/-- `OnKeyPressed` (`text_input_plugin.cc`, lines 104-142): dispatch a
hardware key code to a model operation; `KEY_ENTER` is special-cased
through `EnterPressed` (leaving `changed` false); any other key with a
non-zero code point is added to the text; a state update is sent exactly
when `changed` is set. -/
def OnKeyPressed (p : TextInputPlugin) (keycode codePoint : Nat) :
    TextInputPlugin × List Notif :=
  match p.active_model with
  | none => (p, [])
  | some m =>
    if keycode = KEY_LEFT then
      let r := m.MoveCursorBack
      p.finishKey r.1 r.2 []
    else if keycode = KEY_RIGHT then
      let r := m.MoveCursorForward
      p.finishKey r.1 r.2 []
    else if keycode = KEY_END then
      let r := m.MoveCursorToEnd
      p.finishKey r.1 r.2 []
    else if keycode = KEY_HOME then
      let r := m.MoveCursorToBeginning
      p.finishKey r.1 r.2 []
    else if keycode = KEY_BACKSPACE then
      let r := m.Backspace
      p.finishKey r.1 r.2 []
    else if keycode = KEY_DELETE then
      let r := m.Delete
      p.finishKey r.1 r.2 []
    else if keycode = KEY_ENTER then
      let r := p.EnterPressed m
      p.finishKey r.1 false r.2
    else if codePoint ≠ 0 then
      p.finishKey (m.AddCodePoint (Char.ofNat codePoint)) true []
    else
      (p, [])

/-- The `TextInput.setClient` branch of `HandleMethodCall`
(`text_input_plugin.cc`, lines 180-218): null checks on `args[0]` and
`args[1]`, then reset and re-parse `input_action_` and `input_type_` from
the client config, and install a fresh model. -/
def handleSetClient (p : TextInputPlugin) (args : Json) :
    TextInputPlugin × MethodResult :=
  let client_id_json := args.index 0
  let client_config := args.index 1
  if client_id_json.isNull then
    (p, .error kBadArgumentError "Could not set client, ID is null.")
  else if client_config.isNull then
    (p, .error kBadArgumentError "Could not set client, missing arguments.")
  else
    let input_action :=
      match client_config.find "inputAction" with
      | some (.str s) => s
      | _ => ""
    let input_type :=
      match client_config.find "inputType" with
      | some (.obj ms) =>
        (match Json.find (.obj ms) "name" with
         | some (.str s) => s
         | _ => "")
      | _ => ""
    ({ p with client_id := client_id_json.getInt,
              input_action := input_action,
              input_type := input_type,
              active_model := some TextInputModel.initial },
     .success)

/-- The `TextInput.setEditingState` branch of `HandleMethodCall`
(`text_input_plugin.cc`, lines 219-254): consistency and argument checks,
translation of the `(-1, -1)` sentinel to `(0, 0)`, then `SetText` followed
by `SetSelection`. -/
def handleSetEditingState (p : TextInputPlugin) (args : Json) :
    TextInputPlugin × MethodResult :=
  match p.active_model with
  | none =>
    (p, .error kInternalConsistencyError
          "Set editing state has been invoked, but no client is set.")
  | some m =>
    match args.find "text" with
    | none =>
      (p, .error kBadArgumentError
            "Set editing state has been invoked, but without text.")
    | some textValue =>
      if textValue.isNull then
        (p, .error kBadArgumentError
              "Set editing state has been invoked, but without text.")
      else
        match args.find "selectionBase", args.find "selectionExtent" with
        | some selBase, some selExtent =>
          if selBase.isNull ∨ selExtent.isNull then
            (p, .error kInternalConsistencyError
                  "Selection base/extent values invalid.")
          else
            let base := selBase.getInt
            let extent := selExtent.getInt
            let base' := if base = -1 ∧ extent = -1 then 0 else base
            let extent' := if base = -1 ∧ extent = -1 then 0 else extent
            let m' := (m.SetText textValue.getString.data).SetSelection
                        ⟨base', extent'⟩
            ({ p with active_model := some m' }, .success)
        | _, _ =>
          (p, .error kInternalConsistencyError
                "Selection base/extent values invalid.")

/-- `HandleMethodCall` (`text_input_plugin.cc`, lines 167-262). `show` and
`hide` touch only the virtual-keyboard/IME plumbing (out of scope) and
succeed; `clearClient` nulls the active model; `setClient` and
`setEditingState` check their arguments-document for null first. The
handler never invokes a channel method itself, so the emission component is
`[]` on every path. -/
def HandleMethodCall (p : TextInputPlugin) (method : String)
    (args : Option Json) : TextInputPlugin × MethodResult × List Notif :=
  let r :=
    if method = "TextInput.show" then
      (p, MethodResult.success)
    else if method = "TextInput.hide" then
      (p, MethodResult.success)
    else if method = "TextInput.clearClient" then
      ({ p with active_model := none }, MethodResult.success)
    else if method = "TextInput.setClient" then
      match args with
      | none => (p, .error kBadArgumentError "Method invoked without args")
      | some a =>
        if a.isNull then
          (p, .error kBadArgumentError "Method invoked without args")
        else p.handleSetClient a
    else if method = "TextInput.setEditingState" then
      match args with
      | none => (p, .error kBadArgumentError "Method invoked without args")
      | some a =>
        if a.isNull then
          (p, .error kBadArgumentError "Method invoked without args")
        else p.handleSetEditingState a
    else
      (p, .notImplemented)
  (r.1, r.2, [])

/-- `MaliitHandleIMInitiatedHide` (`text_input_plugin.cc`, lines 308-323):
with no model return `FALSE`; if composing, end composing and send a state
update; always return `FALSE`. -/
def MaliitHandleIMInitiatedHide (p : TextInputPlugin) :
    TextInputPlugin × Bool × List Notif :=
  match p.active_model with
  | none => (p, false, [])
  | some m =>
    if m.composing then
      let m' := m.EndComposing
      ({ p with active_model := some m' }, false, [p.SendStateUpdate m'])
    else
      (p, false, [])

/-- `MaliitHandleCommitString` (`text_input_plugin.cc`, lines 325-348):
with no model return `FALSE`; if composing, apply the commit string as the
composing text and end composing, else add it as plain text; always send a
state update and return `TRUE`. -/
def MaliitHandleCommitString (p : TextInputPlugin) (s : List Char) :
    TextInputPlugin × Bool × List Notif :=
  match p.active_model with
  | none => (p, false, [])
  | some m =>
    let m' :=
      if m.composing then (m.UpdateComposingText s).EndComposing
      else m.AddText s
    ({ p with active_model := some m' }, true, [p.SendStateUpdate m'])

/-- `MaliitHandleUpdatePreedit` (`text_input_plugin.cc`, lines 350-372):
with no model return `FALSE`; begin composing if not already, update the
composing text, send a state update and return `TRUE`. -/
def MaliitHandleUpdatePreedit (p : TextInputPlugin) (s : List Char) :
    TextInputPlugin × Bool × List Notif :=
  match p.active_model with
  | none => (p, false, [])
  | some m =>
    let m0 := if m.composing then m else m.BeginComposing
    let m' := m0.UpdateComposingText s
    ({ p with active_model := some m' }, true, [p.SendStateUpdate m'])

/-- `MaliitHandleKeyEvent` (`text_input_plugin.cc`, lines 374-398): with no
model return `FALSE`; on a key press whose Qt key is in the static table,
dispatch the mapped Linux key code through `OnKeyPressed` with code point
0; always return `TRUE`. -/
def MaliitHandleKeyEvent (p : TextInputPlugin) (type key : Int) :
    TextInputPlugin × Bool × List Notif :=
  match p.active_model with
  | none => (p, false, [])
  | some _ =>
    if type = QtKeyPress then
      match QtKeyToLinuxEvent key with
      | some code =>
        let r := p.OnKeyPressed code 0
        (r.1, true, r.2)
      | none => (p, true, [])
    else
      (p, true, [])

end TextInputPlugin

/-- A key or IME input event reaching the plugin outside the method-call
channel. -/
inductive InputEvent where
  | key (keycode codePoint : Nat)
  | imeHide
  | imeCommit (s : List Char)
  | imePreedit (s : List Char)
  | imeKey (type qtKey : Int)

/-- One key/IME input event processed by the plugin, with the emitted
notifications (the D-Bus boolean return value dropped). -/
def stepEvent (p : TextInputPlugin) : InputEvent → TextInputPlugin × List Notif
  | .key k cp => p.OnKeyPressed k cp
  | .imeHide =>
    let r := p.MaliitHandleIMInitiatedHide
    (r.1, r.2.2)
  | .imeCommit s =>
    let r := p.MaliitHandleCommitString s
    (r.1, r.2.2)
  | .imePreedit s =>
    let r := p.MaliitHandleUpdatePreedit s
    (r.1, r.2.2)
  | .imeKey t k =>
    let r := p.MaliitHandleKeyEvent t k
    (r.1, r.2.2)

end TextInputSpec

namespace TextInputSpec

/-! Helper lemmas: soundness of the change flags reported by the modelled
editing operations, and preservation of text characters by the
non-inserting operations. -/

theorem moveCursorBack_not_changed {m : TextInputModel}
    (h : (m.MoveCursorBack).2 = false) : (m.MoveCursorBack).1 = m := by
  unfold TextInputModel.MoveCursorBack at *
  simp only [decide_eq_false_iff_not, ne_eq, not_not] at h
  simp [h]

theorem moveCursorForward_not_changed {m : TextInputModel}
    (h : (m.MoveCursorForward).2 = false) : (m.MoveCursorForward).1 = m := by
  unfold TextInputModel.MoveCursorForward at *
  simp only [decide_eq_false_iff_not, ne_eq, not_not] at h
  simp [h]

theorem moveCursorToBeginning_not_changed {m : TextInputModel}
    (h : (m.MoveCursorToBeginning).2 = false) :
    (m.MoveCursorToBeginning).1 = m := by
  unfold TextInputModel.MoveCursorToBeginning at *
  simp only [decide_eq_false_iff_not, ne_eq, not_not] at h
  simp [h]

theorem moveCursorToEnd_not_changed {m : TextInputModel}
    (h : (m.MoveCursorToEnd).2 = false) : (m.MoveCursorToEnd).1 = m := by
  unfold TextInputModel.MoveCursorToEnd at *
  simp only [decide_eq_false_iff_not, ne_eq, not_not] at h
  simp [h]

theorem backspace_not_changed {m : TextInputModel}
    (h : (m.Backspace).2 = false) : (m.Backspace).1 = m := by
  by_cases h1 : m.selection.base ≠ m.selection.extent
  · simp [TextInputModel.Backspace, h1] at h
  · by_cases h2 : m.selection.base.toNat ⊓ m.text.length = 0
    · simp [TextInputModel.Backspace, h1, h2]
    · simp [TextInputModel.Backspace, h1, h2] at h

theorem delete_not_changed {m : TextInputModel}
    (h : (m.Delete).2 = false) : (m.Delete).1 = m := by
  by_cases h1 : m.selection.base ≠ m.selection.extent
  · simp [TextInputModel.Delete, h1] at h
  · by_cases h2 : m.selection.base.toNat ⊓ m.text.length < m.text.length
    · simp [TextInputModel.Delete, h1, h2] at h
    · simp [TextInputModel.Delete, h1, h2]

end TextInputSpec

namespace TextInputSpec

theorem mem_of_take_append_drop {l : List Char} {a b : Nat} {c : Char}
    (h : c ∈ l.take a ++ l.drop b) : c ∈ l := by
  rcases List.mem_append.1 h with h | h
  · exact List.take_subset _ _ h
  · exact List.drop_subset _ _ h

theorem mem_of_splice {l s : List Char} {a b : Nat} {c : Char}
    (h : c ∈ l.take a ++ s ++ l.drop b) : c ∈ l ∨ c ∈ s := by
  rcases List.mem_append.1 h with h | h
  · rcases List.mem_append.1 h with h | h
    · exact Or.inl (List.take_subset _ _ h)
    · exact Or.inr h
  · exact Or.inl (List.drop_subset _ _ h)

theorem mem_text_backspace {m : TextInputModel} {c : Char}
    (h : c ∈ (m.Backspace).1.text) : c ∈ m.text := by
  by_cases h1 : m.selection.base ≠ m.selection.extent
  · simp [TextInputModel.Backspace, h1] at h
    rcases h with h | h
    · exact List.take_subset _ _ h
    · exact List.drop_subset _ _ h
  · by_cases h2 : m.selection.base.toNat ⊓ m.text.length = 0
    · simpa [TextInputModel.Backspace, h1, h2] using h
    · simp [TextInputModel.Backspace, h1, h2] at h
      rcases h with h | h
      · exact List.take_subset _ _ h
      · exact List.drop_subset _ _ h

theorem mem_text_delete {m : TextInputModel} {c : Char}
    (h : c ∈ (m.Delete).1.text) : c ∈ m.text := by
  by_cases h1 : m.selection.base ≠ m.selection.extent
  · simp [TextInputModel.Delete, h1] at h
    rcases h with h | h
    · exact List.take_subset _ _ h
    · exact List.drop_subset _ _ h
  · by_cases h2 : m.selection.base.toNat ⊓ m.text.length < m.text.length
    · simp [TextInputModel.Delete, h1, h2] at h
      rcases h with h | h
      · exact List.take_subset _ _ h
      · exact List.drop_subset _ _ h
    · simpa [TextInputModel.Delete, h1, h2] using h

theorem mem_text_addText {m : TextInputModel} {s : List Char} {c : Char}
    (h : c ∈ (m.AddText s).text) : c ∈ m.text ∨ c ∈ s := by
  simp only [TextInputModel.AddText] at h
  exact mem_of_splice h

theorem mem_addText_self {m : TextInputModel} {s : List Char} {c : Char}
    (hc : c ∈ s) : c ∈ (m.AddText s).text := by
  simp only [TextInputModel.AddText]
  exact List.mem_append.2 (Or.inl (List.mem_append.2 (Or.inr hc)))

theorem updates_finishKey (p : TextInputPlugin) (m' : TextInputModel)
    (ch : Bool) (pre : List Notif) :
    updatesOf (p.finishKey m' ch pre).2 =
      updatesOf pre ++ if ch then [p.SendStateUpdate m'] else [] := by
  cases ch <;>
    simp [TextInputPlugin.finishKey, updatesOf, List.filter_append,
      TextInputPlugin.SendStateUpdate, Notif.isUpdate]

end TextInputSpec

namespace TextInputSpec

theorem finishKey_mutation {p : TextInputPlugin} {m m' : TextInputModel}
    (r : TextInputModel × Bool)
    (hsound : r.2 = false → r.1 = m)
    (h2 : (p.finishKey r.1 r.2 []).1.active_model = some m')
    (h3 : m' ≠ m) :
    updatesOf (p.finishKey r.1 r.2 []).2 = [p.SendStateUpdate m'] := by
  have h1 : r.1 = m' := by simpa [TextInputPlugin.finishKey] using h2
  cases hr : r.2 with
  | false => exact absurd (h1 ▸ hsound hr) h3
  | true =>
    rw [updates_finishKey, h1]
    simp [updatesOf]

theorem onKeyPressed_mutation {p : TextInputPlugin} {m m' : TextInputModel}
    {k cp : Nat}
    (h : p.active_model = some m)
    (h2 : (p.OnKeyPressed k cp).1.active_model = some m')
    (h3 : m' ≠ m) :
    updatesOf (p.OnKeyPressed k cp).2 = [p.SendStateUpdate m'] := by
  unfold TextInputPlugin.OnKeyPressed at h2 ⊢
  rw [h] at h2 ⊢
  by_cases hk1 : k = KEY_LEFT
  · simp only [hk1, if_pos] at h2 ⊢
    exact finishKey_mutation _ moveCursorBack_not_changed h2 h3
  · simp only [hk1, if_neg, if_false] at h2 ⊢
    by_cases hk2 : k = KEY_RIGHT
    · simp only [hk2, if_pos] at h2 ⊢
      exact finishKey_mutation _ moveCursorForward_not_changed h2 h3
    · simp only [hk2, if_neg, if_false] at h2 ⊢
      by_cases hk3 : k = KEY_END
      · simp only [hk3, if_pos] at h2 ⊢
        exact finishKey_mutation _ moveCursorToEnd_not_changed h2 h3
      · simp only [hk3, if_neg, if_false] at h2 ⊢
        by_cases hk4 : k = KEY_HOME
        · simp only [hk4, if_pos] at h2 ⊢
          exact finishKey_mutation _ moveCursorToBeginning_not_changed h2 h3
        · simp only [hk4, if_neg, if_false] at h2 ⊢
          by_cases hk5 : k = KEY_BACKSPACE
          · simp only [hk5, if_pos] at h2 ⊢
            exact finishKey_mutation _ backspace_not_changed h2 h3
          · simp only [hk5, if_neg, if_false] at h2 ⊢
            by_cases hk6 : k = KEY_DELETE
            · simp only [hk6, if_pos] at h2 ⊢
              exact finishKey_mutation _ delete_not_changed h2 h3
            · simp only [hk6, if_neg, if_false] at h2 ⊢
              by_cases hk7 : k = KEY_ENTER
              · simp only [hk7, if_pos] at h2 ⊢
                have h1 : (p.EnterPressed m).1 = m' := by
                  simpa [TextInputPlugin.finishKey] using h2
                rw [updates_finishKey]
                by_cases hml : p.input_type = kMultilineInputType
                · rw [← h1]
                  simp [TextInputPlugin.EnterPressed, hml, updatesOf,
                    Notif.isUpdate, TextInputPlugin.SendStateUpdate]
                · exfalso
                  apply h3
                  rw [← h1]
                  simp [TextInputPlugin.EnterPressed, hml]
              · simp only [hk7, if_neg, if_false] at h2 ⊢
                by_cases hcp : cp ≠ 0
                · simp only [ne_eq, hcp, not_false_eq_true, if_true] at h2 ⊢
                  exact finishKey_mutation (m.AddCodePoint (Char.ofNat cp), true)
                    (fun hf => absurd hf (by simp)) h2 h3
                · simp only [ne_eq, hcp, if_false] at h2 ⊢
                  rw [h] at h2
                  exact absurd (Option.some_injective _ h2).symm h3

end TextInputSpec

namespace TextInputSpec

theorem onKeyPressed_zero_cp_chars {p : TextInputPlugin}
    {m m' : TextInputModel} {k : Nat}
    (h : p.active_model = some m)
    (h2 : (p.OnKeyPressed k 0).1.active_model = some m')
    {c : Char} (hc : c ∈ m'.text) : c ∈ m.text ∨ c = '\n' := by
  unfold TextInputPlugin.OnKeyPressed at h2
  rw [h] at h2
  by_cases hk1 : k = KEY_LEFT
  · simp only [hk1, if_pos] at h2
    have h1 : (m.MoveCursorBack).1 = m' := by
      simpa [TextInputPlugin.finishKey] using h2
    rw [← h1] at hc
    exact Or.inl (by simpa [TextInputModel.MoveCursorBack] using hc)
  · simp only [hk1, if_false] at h2
    by_cases hk2 : k = KEY_RIGHT
    · simp only [hk2, if_pos] at h2
      have h1 : (m.MoveCursorForward).1 = m' := by
        simpa [TextInputPlugin.finishKey] using h2
      rw [← h1] at hc
      exact Or.inl (by simpa [TextInputModel.MoveCursorForward] using hc)
    · simp only [hk2, if_false] at h2
      by_cases hk3 : k = KEY_END
      · simp only [hk3, if_pos] at h2
        have h1 : (m.MoveCursorToEnd).1 = m' := by
          simpa [TextInputPlugin.finishKey] using h2
        rw [← h1] at hc
        exact Or.inl (by simpa [TextInputModel.MoveCursorToEnd] using hc)
      · simp only [hk3, if_false] at h2
        by_cases hk4 : k = KEY_HOME
        · simp only [hk4, if_pos] at h2
          have h1 : (m.MoveCursorToBeginning).1 = m' := by
            simpa [TextInputPlugin.finishKey] using h2
          rw [← h1] at hc
          exact Or.inl
            (by simpa [TextInputModel.MoveCursorToBeginning] using hc)
        · simp only [hk4, if_false] at h2
          by_cases hk5 : k = KEY_BACKSPACE
          · simp only [hk5, if_pos] at h2
            have h1 : (m.Backspace).1 = m' := by
              simpa [TextInputPlugin.finishKey] using h2
            rw [← h1] at hc
            exact Or.inl (mem_text_backspace hc)
          · simp only [hk5, if_false] at h2
            by_cases hk6 : k = KEY_DELETE
            · simp only [hk6, if_pos] at h2
              have h1 : (m.Delete).1 = m' := by
                simpa [TextInputPlugin.finishKey] using h2
              rw [← h1] at hc
              exact Or.inl (mem_text_delete hc)
            · simp only [hk6, if_false] at h2
              by_cases hk7 : k = KEY_ENTER
              · simp only [hk7, if_pos] at h2
                have h1 : (p.EnterPressed m).1 = m' := by
                  simpa [TextInputPlugin.finishKey] using h2
                rw [← h1] at hc
                by_cases hml : p.input_type = kMultilineInputType
                · simp only [TextInputPlugin.EnterPressed, hml, if_pos] at hc
                  rcases mem_text_addText hc with hm | hm
                  · exact Or.inl hm
                  · exact Or.inr (by simpa using hm)
                · simp only [TextInputPlugin.EnterPressed, hml, if_false] at hc
                  exact Or.inl hc
              · simp only [hk7, if_false, ne_eq, not_true_eq_false,
                  if_pos, not_not] at h2
                rw [h] at h2
                rw [← Option.some_injective _ h2] at hc
                exact Or.inl hc

end TextInputSpec

namespace TextInputSpec

theorem updateComposingText_active (m : TextInputModel) (s : List Char) :
    (m.UpdateComposingText s).composingActive = m.composingActive := by
  unfold TextInputModel.UpdateComposingText
  by_cases h : m.composingActive
  · cases hr : m.composingRange <;> simp [h, hr]
  · simp [h]

/-- Claim C2: with an active session, `EnterPressed` on a multiline input
type inserts a newline code point and emits the state update (carrying the
newline) strictly before the `performAction` notification; on any other
input type it leaves the model alone and emits only `performAction`; in
both cases the `performAction` payload is `[clientId, inputAction]`. -/
theorem enterPressed_spec (p : TextInputPlugin) (m : TextInputModel) :
    p.EnterPressed m =
      (if p.input_type = kMultilineInputType then
        (m.AddCodePoint '\n',
         [p.SendStateUpdate (m.AddCodePoint '\n'),
          Notif.performAction p.client_id p.input_action])
      else (m, [Notif.performAction p.client_id p.input_action])) ∧
    '\n' ∈ (m.AddCodePoint '\n').text := by
  refine ⟨?_, mem_addText_self (by simp)⟩
  by_cases h : p.input_type = kMultilineInputType <;>
    simp [TextInputPlugin.EnterPressed, h]

/-- Claim C6: the commit-string IME callback with an active model applies
the committed string through `UpdateComposingText` then `EndComposing` when
composing, else inserts it through `AddText`, and always emits one
`updateEditingState` notification. -/
theorem commitString_spec (p : TextInputPlugin) (m : TextInputModel)
    (s : List Char) (h : p.active_model = some m) :
    p.MaliitHandleCommitString s =
      (if m.composing then
        ({ p with active_model := some ((m.UpdateComposingText s).EndComposing) },
         true,
         [p.SendStateUpdate ((m.UpdateComposingText s).EndComposing)])
      else
        ({ p with active_model := some (m.AddText s) }, true,
         [p.SendStateUpdate (m.AddText s)])) := by
  by_cases hc : m.composing <;>
    simp [TextInputPlugin.MaliitHandleCommitString, h, hc]

/-- Claim C7: the update-preedit IME callback with an active model begins
composing first when not already composing, applies `UpdateComposingText`
with the preedit string, always emits one `updateEditingState`
notification, and leaves the model composing. -/
theorem updatePreedit_spec (p : TextInputPlugin) (m : TextInputModel)
    (s : List Char) (h : p.active_model = some m) :
    (m.composing = false →
      p.MaliitHandleUpdatePreedit s =
        ({ p with active_model := some (m.BeginComposing.UpdateComposingText s) },
         true,
         [p.SendStateUpdate (m.BeginComposing.UpdateComposingText s)])) ∧
    (m.composing = true →
      p.MaliitHandleUpdatePreedit s =
        ({ p with active_model := some (m.UpdateComposingText s) }, true,
         [p.SendStateUpdate (m.UpdateComposingText s)])) ∧
    (∀ m', (p.MaliitHandleUpdatePreedit s).1.active_model = some m' →
      m'.composing = true) := by
  refine ⟨?_, ?_, ?_⟩
  · intro hc
    simp [TextInputPlugin.MaliitHandleUpdatePreedit, h, hc]
  · intro hc
    simp [TextInputPlugin.MaliitHandleUpdatePreedit, h, hc]
  · intro m' hm'
    by_cases hc : m.composing <;>
      simp only [TextInputPlugin.MaliitHandleUpdatePreedit, h, hc,
        if_true, if_false] at hm'
    · have : m.UpdateComposingText s = m' := by simpa using hm'
      rw [← this, TextInputModel.composing, updateComposingText_active]
      exact hc
    · have : m.BeginComposing.UpdateComposingText s = m' := by simpa using hm'
      rw [← this, TextInputModel.composing, updateComposingText_active]
      simp [TextInputModel.BeginComposing]

end TextInputSpec

namespace TextInputSpec

/-- Claim C3: with an active model, `OnKeyPressed` dispatches by the fixed
table (LEFT, RIGHT, END, HOME, BACKSPACE, DELETE to the corresponding model
operations; ENTER to `EnterPressed`), any other key code with a non-zero
code point adds the code point as a change, any other key code with code
point 0 is a no-op, and the dispatch emits a state update exactly when the
invoked operation reported a change. -/
theorem onKeyPressed_dispatch (p : TextInputPlugin) (m : TextInputModel)
    (k cp : Nat) (h : p.active_model = some m) :
    (k = KEY_LEFT → p.OnKeyPressed k cp =
      ({ p with active_model := some (m.MoveCursorBack).1 },
       if (m.MoveCursorBack).2 then [p.SendStateUpdate (m.MoveCursorBack).1]
       else [])) ∧
    (k = KEY_RIGHT → p.OnKeyPressed k cp =
      ({ p with active_model := some (m.MoveCursorForward).1 },
       if (m.MoveCursorForward).2 then
         [p.SendStateUpdate (m.MoveCursorForward).1]
       else [])) ∧
    (k = KEY_END → p.OnKeyPressed k cp =
      ({ p with active_model := some (m.MoveCursorToEnd).1 },
       if (m.MoveCursorToEnd).2 then [p.SendStateUpdate (m.MoveCursorToEnd).1]
       else [])) ∧
    (k = KEY_HOME → p.OnKeyPressed k cp =
      ({ p with active_model := some (m.MoveCursorToBeginning).1 },
       if (m.MoveCursorToBeginning).2 then
         [p.SendStateUpdate (m.MoveCursorToBeginning).1]
       else [])) ∧
    (k = KEY_BACKSPACE → p.OnKeyPressed k cp =
      ({ p with active_model := some (m.Backspace).1 },
       if (m.Backspace).2 then [p.SendStateUpdate (m.Backspace).1]
       else [])) ∧
    (k = KEY_DELETE → p.OnKeyPressed k cp =
      ({ p with active_model := some (m.Delete).1 },
       if (m.Delete).2 then [p.SendStateUpdate (m.Delete).1]
       else [])) ∧
    (k = KEY_ENTER → p.OnKeyPressed k cp =
      ({ p with active_model := some (p.EnterPressed m).1 },
       (p.EnterPressed m).2)) ∧
    (k ≠ KEY_LEFT → k ≠ KEY_RIGHT → k ≠ KEY_END → k ≠ KEY_HOME →
     k ≠ KEY_BACKSPACE → k ≠ KEY_DELETE → k ≠ KEY_ENTER → cp ≠ 0 →
      p.OnKeyPressed k cp =
        ({ p with active_model := some (m.AddCodePoint (Char.ofNat cp)) },
         [p.SendStateUpdate (m.AddCodePoint (Char.ofNat cp))])) ∧
    (k ≠ KEY_LEFT → k ≠ KEY_RIGHT → k ≠ KEY_END → k ≠ KEY_HOME →
     k ≠ KEY_BACKSPACE → k ≠ KEY_DELETE → k ≠ KEY_ENTER → cp = 0 →
      p.OnKeyPressed k cp = (p, [])) := by
  refine ⟨?_, ?_, ?_, ?_, ?_, ?_, ?_, ?_, ?_⟩
  · intro hk
    simp [TextInputPlugin.OnKeyPressed, TextInputPlugin.finishKey, h, hk]
  · intro hk
    simp [TextInputPlugin.OnKeyPressed, TextInputPlugin.finishKey, h, hk,
      KEY_LEFT, KEY_RIGHT]
  · intro hk
    simp [TextInputPlugin.OnKeyPressed, TextInputPlugin.finishKey, h, hk,
      KEY_LEFT, KEY_RIGHT, KEY_END]
  · intro hk
    simp [TextInputPlugin.OnKeyPressed, TextInputPlugin.finishKey, h, hk,
      KEY_LEFT, KEY_RIGHT, KEY_END, KEY_HOME]
  · intro hk
    simp [TextInputPlugin.OnKeyPressed, TextInputPlugin.finishKey, h, hk,
      KEY_LEFT, KEY_RIGHT, KEY_END, KEY_HOME, KEY_BACKSPACE]
  · intro hk
    simp [TextInputPlugin.OnKeyPressed, TextInputPlugin.finishKey, h, hk,
      KEY_LEFT, KEY_RIGHT, KEY_END, KEY_HOME, KEY_BACKSPACE, KEY_DELETE]
  · intro hk
    simp [TextInputPlugin.OnKeyPressed, TextInputPlugin.finishKey, h, hk,
      KEY_LEFT, KEY_RIGHT, KEY_END, KEY_HOME, KEY_BACKSPACE, KEY_DELETE,
      KEY_ENTER]
  · intro h1 h2 h3 h4 h5 h6 h7 hcp
    simp [TextInputPlugin.OnKeyPressed, TextInputPlugin.finishKey, h,
      h1, h2, h3, h4, h5, h6, h7, hcp]
  · intro h1 h2 h3 h4 h5 h6 h7 hcp
    simp [TextInputPlugin.OnKeyPressed, h, h1, h2, h3, h4, h5, h6, h7, hcp]

end TextInputSpec

namespace TextInputSpec

/-- Claim C8: `clearClient` nulls the active model, and with no active
model every hardware key event and every IME callback leaves the plugin
state untouched and emits no notification. -/
theorem clearClient_quiescent :
    (∀ (p : TextInputPlugin) (args : Option Json),
      p.HandleMethodCall "TextInput.clearClient" args =
        ({ p with active_model := none }, .success, [])) ∧
    (∀ (p : TextInputPlugin) (e : InputEvent), p.active_model = none →
      stepEvent p e = (p, [])) := by
  constructor
  · intro p args
    simp [TextInputPlugin.HandleMethodCall]
  · intro p e h
    cases e with
    | key k cp =>
      simp [stepEvent, TextInputPlugin.OnKeyPressed, h]
    | imeHide =>
      simp [stepEvent, TextInputPlugin.MaliitHandleIMInitiatedHide, h]
    | imeCommit s =>
      simp [stepEvent, TextInputPlugin.MaliitHandleCommitString, h]
    | imePreedit s =>
      simp [stepEvent, TextInputPlugin.MaliitHandleUpdatePreedit, h]
    | imeKey t k =>
      simp [stepEvent, TextInputPlugin.MaliitHandleKeyEvent, h]

/-- Claim C10: the key-event IME callback with an active model dispatches
through `OnKeyPressed` only on a key-press event whose Qt key is in the
static table, always with code point 0; anything else is ignored; and no
character other than a newline can enter the text through this path. -/
theorem maliitKeyEvent_spec (p : TextInputPlugin) (m : TextInputModel)
    (type key : Int) (h : p.active_model = some m) :
    (type ≠ QtKeyPress → p.MaliitHandleKeyEvent type key = (p, true, [])) ∧
    (QtKeyToLinuxEvent key = none →
      p.MaliitHandleKeyEvent type key = (p, true, [])) ∧
    (∀ code, type = QtKeyPress → QtKeyToLinuxEvent key = some code →
      p.MaliitHandleKeyEvent type key =
        ((p.OnKeyPressed code 0).1, true, (p.OnKeyPressed code 0).2)) ∧
    (∀ m' c, (p.MaliitHandleKeyEvent type key).1.active_model = some m' →
      c ∈ m'.text → c ∈ m.text ∨ c = '\n') := by
  refine ⟨?_, ?_, ?_, ?_⟩
  · intro ht
    simp [TextInputPlugin.MaliitHandleKeyEvent, h, ht]
  · intro hmap
    by_cases ht : type = QtKeyPress <;>
      simp [TextInputPlugin.MaliitHandleKeyEvent, h, ht, hmap]
  · intro code ht hmap
    simp [TextInputPlugin.MaliitHandleKeyEvent, h, ht, hmap]
  · intro m' c hm' hc
    by_cases ht : type = QtKeyPress
    · cases hmap : QtKeyToLinuxEvent key with
      | none =>
        simp only [TextInputPlugin.MaliitHandleKeyEvent, h, ht, hmap,
          if_true] at hm'
        rw [← Option.some_injective _ hm'] at hc
        exact Or.inl hc
      | some code =>
        simp only [TextInputPlugin.MaliitHandleKeyEvent, h, ht, hmap,
          if_true] at hm'
        exact onKeyPressed_zero_cp_chars h hm' hc
    · simp only [TextInputPlugin.MaliitHandleKeyEvent, h, ht, if_false] at hm'
      rw [← Option.some_injective _ hm'] at hc
      exact Or.inl hc

end TextInputSpec

namespace TextInputSpec

/-- Claim C4: a well-formed `setEditingState` call with an active session
maps the `(-1, -1)` sentinel selection to `(0, 0)`, applies any other
bounds verbatim (no clamping), and applies `SetText` before
`SetSelection`. -/
theorem setEditingState_apply (p : TextInputPlugin) (m : TextInputModel)
    (args : Json) (t : String) (b e : Int)
    (h : p.active_model = some m)
    (ht : args.find "text" = some (.str t))
    (hb : args.find "selectionBase" = some (.int b))
    (he : args.find "selectionExtent" = some (.int e)) :
    p.HandleMethodCall "TextInput.setEditingState" (some args) =
      ({ p with active_model := some ((m.SetText t.data).SetSelection (if b = -1 ∧ e = -1 then ⟨0, 0⟩ else ⟨b, e⟩)) },
       .success, []) := by
  cases args with
  | obj ms =>
    by_cases hbe : b = -1 ∧ e = -1 <;>
      simp [TextInputPlugin.HandleMethodCall,
        TextInputPlugin.handleSetEditingState, Json.isNull, h, ht, hb, he,
        Json.getInt, Json.getString, hbe]
  | null => simp [Json.find] at ht
  | bool b0 => simp [Json.find] at ht
  | int n => simp [Json.find] at ht
  | str s => simp [Json.find] at ht
  | arr xs => simp [Json.find] at ht

end TextInputSpec

namespace TextInputSpec

/-- Claim C5: `setEditingState` reports `Internal Consistency Error` when
no session is active and `Bad Arguments` when the `text` member is missing
or null; a missing or null selection bound (with a session and text
present) reports `Internal Consistency Error`; every such error leaves the
plugin state, hence the model's text and selection, untouched, and emits
nothing. -/
theorem setEditingState_errors :
    (∀ (p : TextInputPlugin) (a : Json), p.active_model = none →
      a.isNull = false →
      ∃ msg, p.HandleMethodCall "TextInput.setEditingState" (some a) =
        (p, .error kInternalConsistencyError msg, [])) ∧
    (∀ (p : TextInputPlugin) (m : TextInputModel) (a : Json),
      p.active_model = some m →
      (a.find "text" = none ∨ a.find "text" = some .null) →
      ∃ msg, p.HandleMethodCall "TextInput.setEditingState" (some a) =
        (p, .error kBadArgumentError msg, [])) ∧
    (∀ (p : TextInputPlugin) (m : TextInputModel) (a : Json) (tv : Json),
      p.active_model = some m →
      a.find "text" = some tv → tv.isNull = false →
      (a.find "selectionBase" = none ∨ a.find "selectionBase" = some .null ∨
       a.find "selectionExtent" = none ∨
       a.find "selectionExtent" = some .null) →
      ∃ msg, p.HandleMethodCall "TextInput.setEditingState" (some a) =
        (p, .error kInternalConsistencyError msg, [])) := by
  refine ⟨?_, ?_, ?_⟩
  · intro p a h hnull
    exact ⟨"Set editing state has been invoked, but no client is set.",
      by simp [TextInputPlugin.HandleMethodCall,
        TextInputPlugin.handleSetEditingState, h, hnull]⟩
  · intro p m a h htext
    by_cases hnull : a.isNull
    · exact ⟨"Method invoked without args",
        by simp [TextInputPlugin.HandleMethodCall, hnull]⟩
    · have ha : a.isNull = false := by simpa using hnull
      refine ⟨"Set editing state has been invoked, but without text.", ?_⟩
      rcases htext with htext | htext <;>
        simp [TextInputPlugin.HandleMethodCall,
          TextInputPlugin.handleSetEditingState, h, ha, htext,
          show Json.null.isNull = true from rfl]
  · intro p m a tv h htext hnn hsel
    have ha : a.isNull = false := by
      cases a <;> simp_all [Json.find, Json.isNull]
    refine ⟨"Selection base/extent values invalid.", ?_⟩
    cases hfb : a.find "selectionBase" with
    | none =>
      simp [TextInputPlugin.HandleMethodCall,
        TextInputPlugin.handleSetEditingState, h, ha, htext, hnn, hfb]
    | some vb =>
      cases hfe : a.find "selectionExtent" with
      | none =>
        simp [TextInputPlugin.HandleMethodCall,
          TextInputPlugin.handleSetEditingState, h, ha, htext, hnn, hfb, hfe]
      | some ve =>
        have hvn : vb.isNull = true ∨ ve.isNull = true := by
          rcases hsel with hs | hs | hs | hs
          · rw [hs] at hfb
            exact absurd hfb (by simp)
          · rw [hs] at hfb
            obtain rfl : Json.null = vb := Option.some.inj hfb
            exact Or.inl rfl
          · rw [hs] at hfe
            exact absurd hfe (by simp)
          · rw [hs] at hfe
            obtain rfl : Json.null = ve := Option.some.inj hfe
            exact Or.inr rfl
        rcases hvn with hv | hv <;>
          simp [TextInputPlugin.HandleMethodCall,
            TextInputPlugin.handleSetEditingState, h, ha, htext, hnn,
            hfb, hfe, hv]

end TextInputSpec

namespace TextInputSpec

/-- Claim C9: a successful `setClient` takes `inputAction` from the config
only when present as a string and `inputType` from the config's
`inputType.name` only when `inputType` is an object with a string `name`;
anything missing or wrong-typed yields the empty string regardless of the
previous session's values, and a fresh model is installed. -/
theorem setClient_parse (p : TextInputPlugin) (cid : Int)
    (cfg : List (String × Json)) :
    (∀ s, Json.find (.obj cfg) "inputAction" = some (.str s) →
      (p.HandleMethodCall "TextInput.setClient"
        (some (.arr [.int cid, .obj cfg]))).1.input_action = s) ∧
    ((¬ ∃ s, Json.find (.obj cfg) "inputAction" = some (.str s)) →
      (p.HandleMethodCall "TextInput.setClient"
        (some (.arr [.int cid, .obj cfg]))).1.input_action = "") ∧
    (∀ ms s, Json.find (.obj cfg) "inputType" = some (.obj ms) →
      Json.find (.obj ms) "name" = some (.str s) →
      (p.HandleMethodCall "TextInput.setClient"
        (some (.arr [.int cid, .obj cfg]))).1.input_type = s) ∧
    ((¬ ∃ ms s, Json.find (.obj cfg) "inputType" = some (.obj ms) ∧
        Json.find (.obj ms) "name" = some (.str s)) →
      (p.HandleMethodCall "TextInput.setClient"
        (some (.arr [.int cid, .obj cfg]))).1.input_type = "") ∧
    ((p.HandleMethodCall "TextInput.setClient"
        (some (.arr [.int cid, .obj cfg]))).1.client_id = cid ∧
     (p.HandleMethodCall "TextInput.setClient"
        (some (.arr [.int cid, .obj cfg]))).1.active_model =
       some TextInputModel.initial ∧
     (p.HandleMethodCall "TextInput.setClient"
        (some (.arr [.int cid, .obj cfg]))).2.1 = .success) := by
  refine ⟨?_, ?_, ?_, ?_, ?_, ?_, ?_⟩
  · intro s hs
    simp [TextInputPlugin.HandleMethodCall, TextInputPlugin.handleSetClient,
      Json.isNull, Json.index, Json.getInt, hs]
  · intro hno
    cases hfa : Json.find (.obj cfg) "inputAction" with
    | none =>
      simp [TextInputPlugin.HandleMethodCall, TextInputPlugin.handleSetClient,
        Json.isNull, Json.index, Json.getInt, hfa]
    | some v =>
      cases v <;>
        simp_all [TextInputPlugin.HandleMethodCall,
          TextInputPlugin.handleSetClient, Json.isNull, Json.index,
          Json.getInt]
  · intro ms s hms hname
    simp [TextInputPlugin.HandleMethodCall, TextInputPlugin.handleSetClient,
      Json.isNull, Json.index, Json.getInt, hms, hname]
  · intro hno
    cases hft : Json.find (.obj cfg) "inputType" with
    | none =>
      simp [TextInputPlugin.HandleMethodCall, TextInputPlugin.handleSetClient,
        Json.isNull, Json.index, Json.getInt, hft]
    | some v =>
      cases v with
      | obj ms =>
        cases hname : Json.find (.obj ms) "name" with
        | none =>
          simp [TextInputPlugin.HandleMethodCall,
            TextInputPlugin.handleSetClient, Json.isNull, Json.index,
            Json.getInt, hft, hname]
        | some nv =>
          cases nv <;>
            simp_all [TextInputPlugin.HandleMethodCall,
              TextInputPlugin.handleSetClient, Json.isNull, Json.index,
              Json.getInt]
      | null =>
        simp [TextInputPlugin.HandleMethodCall,
          TextInputPlugin.handleSetClient, Json.isNull, Json.index,
          Json.getInt, hft]
      | bool b =>
        simp [TextInputPlugin.HandleMethodCall,
          TextInputPlugin.handleSetClient, Json.isNull, Json.index,
          Json.getInt, hft]
      | int n =>
        simp [TextInputPlugin.HandleMethodCall,
          TextInputPlugin.handleSetClient, Json.isNull, Json.index,
          Json.getInt, hft]
      | str s0 =>
        simp [TextInputPlugin.HandleMethodCall,
          TextInputPlugin.handleSetClient, Json.isNull, Json.index,
          Json.getInt, hft]
      | arr xs =>
        simp [TextInputPlugin.HandleMethodCall,
          TextInputPlugin.handleSetClient, Json.isNull, Json.index,
          Json.getInt, hft]
  · simp [TextInputPlugin.HandleMethodCall, TextInputPlugin.handleSetClient,
      Json.isNull, Json.index, Json.getInt]
  · simp [TextInputPlugin.HandleMethodCall, TextInputPlugin.handleSetClient,
      Json.isNull, Json.index, Json.getInt]
  · simp [TextInputPlugin.HandleMethodCall, TextInputPlugin.handleSetClient,
      Json.isNull, Json.index, Json.getInt]

end TextInputSpec

namespace TextInputSpec

/-- Claim C1 as stated is false on the code: the `setEditingState`
protocol path is a model-mutating input path (here the model's text goes
from empty to `"a"`), yet it emits no `updateEditingState`
notification. -/
theorem stateUpdate_counterexample :
    ((TextInputPlugin.mk 5 "" "" (some TextInputModel.initial)).HandleMethodCall
        "TextInput.setEditingState"
        (some (.obj [("text", .str "a"), ("selectionBase", .int 0),
                     ("selectionExtent", .int 0)]))).1.active_model ≠
      some TextInputModel.initial ∧
    ((TextInputPlugin.mk 5 "" "" (some TextInputModel.initial)).HandleMethodCall
        "TextInput.setEditingState"
        (some (.obj [("text", .str "a"), ("selectionBase", .int 0),
                     ("selectionExtent", .int 0)]))).2.2 = [] ∧
    ((TextInputPlugin.mk 5 "" "" (some TextInputModel.initial)).HandleMethodCall
        "TextInput.setEditingState"
        (some (.obj [("text", .str "a"), ("selectionBase", .int 0),
                     ("selectionExtent", .int 0)]))).2.1 = .success := by
  refine ⟨by decide, rfl, rfl⟩

/-- Claim C1 (amended): every `SendStateUpdate` payload is the pair of the
client id and an editing state with composing offsets `-1`, downstream
affinity, the model's selection and text, and `selectionIsDirectional`
false; and after any model mutation through the hardware-key or IME input
paths exactly one such notification is emitted, carrying the post-mutation
state. (The `setEditingState` protocol path mutates the model without
emitting a notification.) -/
theorem stateUpdate_spec :
    (∀ (p : TextInputPlugin) (m : TextInputModel),
      p.SendStateUpdate m = .updateEditingState p.client_id
        { composingBase := -1, composingExtent := -1,
          selectionAffinity := kAffinityDownstream,
          selectionBase := m.selection.base,
          selectionExtent := m.selection.extent,
          selectionIsDirectional := false, text := m.text }) ∧
    (∀ (p : TextInputPlugin) (e : InputEvent) (m m' : TextInputModel),
      p.active_model = some m →
      (stepEvent p e).1.active_model = some m' → m' ≠ m →
      updatesOf (stepEvent p e).2 = [p.SendStateUpdate m']) := by
  constructor
  · intro p m
    rfl
  · intro p e m m' h h2 h3
    cases e with
    | key k cp => exact onKeyPressed_mutation h h2 h3
    | imeHide =>
      by_cases hc : m.composing
      · simp only [stepEvent, TextInputPlugin.MaliitHandleIMInitiatedHide,
          h, hc, if_true] at h2 ⊢
        obtain rfl : m.EndComposing = m' := Option.some.inj h2
        simp [updatesOf, Notif.isUpdate, TextInputPlugin.SendStateUpdate]
      · simp [stepEvent, TextInputPlugin.MaliitHandleIMInitiatedHide,
          h, hc] at h2
        exact absurd h2.symm h3
    | imeCommit s =>
      simp only [stepEvent, TextInputPlugin.MaliitHandleCommitString,
        h] at h2 ⊢
      obtain rfl := Option.some.inj h2
      simp [updatesOf, Notif.isUpdate, TextInputPlugin.SendStateUpdate]
    | imePreedit s =>
      simp only [stepEvent, TextInputPlugin.MaliitHandleUpdatePreedit,
        h] at h2 ⊢
      obtain rfl := Option.some.inj h2
      simp [updatesOf, Notif.isUpdate, TextInputPlugin.SendStateUpdate]
    | imeKey t k =>
      by_cases ht : t = QtKeyPress
      · cases hmap : QtKeyToLinuxEvent k with
        | some code =>
          simp only [stepEvent, TextInputPlugin.MaliitHandleKeyEvent, h,
            ht, hmap, if_true] at h2 ⊢
          exact onKeyPressed_mutation h h2 h3
        | none =>
          simp [stepEvent, TextInputPlugin.MaliitHandleKeyEvent, h,
            ht, hmap] at h2
          exact absurd h2.symm h3
      · simp [stepEvent, TextInputPlugin.MaliitHandleKeyEvent, h,
          ht] at h2
        exact absurd h2.symm h3

end TextInputSpec

namespace TextInputSpec

theorem onKeyPressed_dispatch_witness :
    (TextInputPlugin.mk 5 "done" "" (some TextInputModel.initial)).OnKeyPressed
        KEY_LEFT 0 =
      ({ TextInputPlugin.mk 5 "done" "" (some TextInputModel.initial) with
          active_model := some (TextInputModel.initial.MoveCursorBack).1 },
       if (TextInputModel.initial.MoveCursorBack).2 then
         [(TextInputPlugin.mk 5 "done" ""
            (some TextInputModel.initial)).SendStateUpdate
            (TextInputModel.initial.MoveCursorBack).1]
       else []) :=
  (onKeyPressed_dispatch
    (TextInputPlugin.mk 5 "done" "" (some TextInputModel.initial))
    TextInputModel.initial KEY_LEFT 0 rfl).1 rfl

theorem setEditingState_apply_witness :
    (TextInputPlugin.mk 5 "" "" (some TextInputModel.initial)).HandleMethodCall
        "TextInput.setEditingState"
        (some (.obj [("text", .str "hi"), ("selectionBase", .int (-1)),
                     ("selectionExtent", .int (-1))])) =
      ({ TextInputPlugin.mk 5 "" "" (some TextInputModel.initial) with
          active_model := some ((TextInputModel.initial.SetText "hi".data).SetSelection (if (-1 : Int) = -1 ∧ (-1 : Int) = -1 then ⟨0, 0⟩ else ⟨-1, -1⟩)) },
       .success, []) :=
  setEditingState_apply
    (TextInputPlugin.mk 5 "" "" (some TextInputModel.initial))
    TextInputModel.initial
    (.obj [("text", .str "hi"), ("selectionBase", .int (-1)),
           ("selectionExtent", .int (-1))])
    "hi" (-1) (-1) rfl rfl rfl rfl

theorem setEditingState_errors_witness :
    (∃ msg, (TextInputPlugin.mk 5 "" "" none).HandleMethodCall
        "TextInput.setEditingState" (some (.obj [])) =
      (TextInputPlugin.mk 5 "" "" none,
       .error kInternalConsistencyError msg, [])) ∧
    (∃ msg, (TextInputPlugin.mk 5 "" ""
        (some TextInputModel.initial)).HandleMethodCall
        "TextInput.setEditingState" (some (.obj [])) =
      (TextInputPlugin.mk 5 "" "" (some TextInputModel.initial),
       .error kBadArgumentError msg, [])) ∧
    (∃ msg, (TextInputPlugin.mk 5 "" ""
        (some TextInputModel.initial)).HandleMethodCall
        "TextInput.setEditingState"
        (some (.obj [("text", .str "hi")])) =
      (TextInputPlugin.mk 5 "" "" (some TextInputModel.initial),
       .error kInternalConsistencyError msg, [])) :=
  ⟨setEditingState_errors.1 (TextInputPlugin.mk 5 "" "" none) (.obj [])
     rfl rfl,
   setEditingState_errors.2.1 (TextInputPlugin.mk 5 "" ""
     (some TextInputModel.initial)) TextInputModel.initial (.obj [])
     rfl (Or.inl rfl),
   setEditingState_errors.2.2 (TextInputPlugin.mk 5 "" ""
     (some TextInputModel.initial)) TextInputModel.initial
     (.obj [("text", .str "hi")]) (.str "hi") rfl rfl rfl (Or.inl rfl)⟩

theorem commitString_spec_witness :
    (TextInputPlugin.mk 5 "" ""
        (some TextInputModel.initial)).MaliitHandleCommitString
        "x".data =
      (if TextInputModel.initial.composing then
        ({ TextInputPlugin.mk 5 "" "" (some TextInputModel.initial) with
            active_model := some ((TextInputModel.initial.UpdateComposingText "x".data).EndComposing) },
         true,
         [(TextInputPlugin.mk 5 "" ""
            (some TextInputModel.initial)).SendStateUpdate
            ((TextInputModel.initial.UpdateComposingText "x".data).EndComposing)])
      else
        ({ TextInputPlugin.mk 5 "" "" (some TextInputModel.initial) with
            active_model := some (TextInputModel.initial.AddText "x".data) },
         true,
         [(TextInputPlugin.mk 5 "" ""
            (some TextInputModel.initial)).SendStateUpdate
            (TextInputModel.initial.AddText "x".data)])) :=
  commitString_spec (TextInputPlugin.mk 5 "" "" (some TextInputModel.initial))
    TextInputModel.initial "x".data rfl

theorem updatePreedit_spec_witness :
    (TextInputModel.initial.composing = false →
      (TextInputPlugin.mk 5 "" ""
          (some TextInputModel.initial)).MaliitHandleUpdatePreedit "x".data =
        ({ TextInputPlugin.mk 5 "" "" (some TextInputModel.initial) with
            active_model := some (TextInputModel.initial.BeginComposing.UpdateComposingText "x".data) },
         true,
         [(TextInputPlugin.mk 5 "" ""
            (some TextInputModel.initial)).SendStateUpdate
            (TextInputModel.initial.BeginComposing.UpdateComposingText "x".data)])) ∧
    (TextInputModel.initial.composing = true →
      (TextInputPlugin.mk 5 "" ""
          (some TextInputModel.initial)).MaliitHandleUpdatePreedit "x".data =
        ({ TextInputPlugin.mk 5 "" "" (some TextInputModel.initial) with
            active_model := some (TextInputModel.initial.UpdateComposingText "x".data) },
         true,
         [(TextInputPlugin.mk 5 "" ""
            (some TextInputModel.initial)).SendStateUpdate
            (TextInputModel.initial.UpdateComposingText "x".data)])) ∧
    (∀ m', ((TextInputPlugin.mk 5 "" ""
        (some TextInputModel.initial)).MaliitHandleUpdatePreedit
        "x".data).1.active_model = some m' → m'.composing = true) :=
  updatePreedit_spec (TextInputPlugin.mk 5 "" "" (some TextInputModel.initial))
    TextInputModel.initial "x".data rfl

theorem clearClient_quiescent_witness :
    stepEvent (TextInputPlugin.mk 5 "" "" none) (.key KEY_LEFT 0) =
      (TextInputPlugin.mk 5 "" "" none, []) :=
  clearClient_quiescent.2 (TextInputPlugin.mk 5 "" "" none)
    (.key KEY_LEFT 0) rfl

theorem setClient_parse_witness :
    ((TextInputPlugin.mk 0 "old" "oldType"
        (some TextInputModel.initial)).HandleMethodCall "TextInput.setClient"
        (some (.arr [.int 7, .obj [("inputAction", .str "newline")]]))).1.input_action =
      "newline" ∧
    ((TextInputPlugin.mk 0 "old" "oldType"
        (some TextInputModel.initial)).HandleMethodCall "TextInput.setClient"
        (some (.arr [.int 7, .obj []]))).1.input_action = "" ∧
    ((TextInputPlugin.mk 0 "old" "oldType"
        (some TextInputModel.initial)).HandleMethodCall "TextInput.setClient"
        (some (.arr [.int 7, .obj []]))).1.input_type = "" :=
  ⟨(setClient_parse (TextInputPlugin.mk 0 "old" "oldType"
      (some TextInputModel.initial)) 7 [("inputAction", .str "newline")]).1
      "newline" rfl,
   (setClient_parse (TextInputPlugin.mk 0 "old" "oldType"
      (some TextInputModel.initial)) 7 []).2.1
      (by simp [Json.find]),
   (setClient_parse (TextInputPlugin.mk 0 "old" "oldType"
      (some TextInputModel.initial)) 7 []).2.2.2.1
      (by simp [Json.find])⟩

theorem maliitKeyEvent_spec_witness :
    (TextInputPlugin.mk 5 "" ""
        (some TextInputModel.initial)).MaliitHandleKeyEvent 6 0x01000012 =
      (((TextInputPlugin.mk 5 "" ""
          (some TextInputModel.initial)).OnKeyPressed KEY_LEFT 0).1, true,
       ((TextInputPlugin.mk 5 "" ""
          (some TextInputModel.initial)).OnKeyPressed KEY_LEFT 0).2) :=
  (maliitKeyEvent_spec (TextInputPlugin.mk 5 "" ""
      (some TextInputModel.initial)) TextInputModel.initial 6 0x01000012
      rfl).2.2.1 KEY_LEFT rfl rfl

theorem stateUpdate_spec_witness :
    updatesOf (stepEvent (TextInputPlugin.mk 5 "" ""
        (some TextInputModel.initial)) (.imeCommit "x".data)).2 =
      [(TextInputPlugin.mk 5 "" ""
          (some TextInputModel.initial)).SendStateUpdate
        (TextInputModel.initial.AddText "x".data)] :=
  stateUpdate_spec.2 (TextInputPlugin.mk 5 "" ""
      (some TextInputModel.initial)) (.imeCommit "x".data)
    TextInputModel.initial (TextInputModel.initial.AddText "x".data)
    rfl rfl (by decide)

end TextInputSpec
